import Mathlib

/-!
Shallow embedding of the content-processing and publishing core of the
crypto-autoposting system (src/processing/content_processor.py,
src/publishing/publisher.py, src/utils/similarity.py, src/utils/redis_client.py,
src/config.py, src/models.py), together with theorems settling the frozen
claims C1..C10 about that core.

Modelling conventions:
- Python floats are modelled as exact rationals (ℚ); all float operations used
  by the source are order comparisons, additions and divisions, faithfully
  represented on ℚ.
- Database rows are records in lists; a SQLAlchemy session's single
  `commit`/`rollback` at the end of an operation is modelled by either applying
  the whole batched update or returning the unchanged state.
- External collaborators (OpenAI, translator, Telegram, embedding model) are
  modelled as explicit input parameters carrying the outcome of the call
  (`none` = the call raised or returned an unusable response).
- Timestamps are integers (seconds); `datetime.utcnow()` is a `now` parameter.
-/

namespace CryptoAutopost

/-! ### Basic string helpers (Python semantics) -/

/-- Python `str.lower()` restricted to the character-wise ASCII case map,
which is all the source's keyword tests need. -/
def py_lower (s : String) : List Char := s.data.map Char.toLower

/-- Python substring test `needle in hay` on character lists. -/
def contains_sub (hay needle : List Char) : Bool :=
  match hay with
  | [] => needle.isPrefixOf []
  | c :: t => needle.isPrefixOf (c :: t) || contains_sub t needle

/-! ### Configuration (src/config.py) -/

/-- The fields of `Settings` that the processing/publishing core reads,
with their defaults from config.py. -/
structure Settings where
  min_similarity_threshold : ℚ := mkRat 7 10
  affiliate_link_frequency : Nat := 5
deriving Repr, DecidableEq

/-- One entry of `AffiliateConfig.AFFILIATE_LINKS`. -/
structure AffLink where
  name : String
  url : String
  text : String
  weight : ℚ
deriving Repr, DecidableEq

/-- The `AffiliateConfig.AFFILIATE_LINKS` list from config.py (weights 0.4, 0.3, 0.3). -/
def AFFILIATE_LINKS : List AffLink :=
  [ { name := "Binance", url := "https://accounts.binance.com/register?ref=YOUR_REF",
      text := "Если хотите быстрее заходить на биржу — используйте партнёрскую ссылку",
      weight := mkRat 2 5 },
    { name := "ByBit", url := "https://www.bybit.com/register?affiliate_id=YOUR_ID",
      text := "Для торговли с бонусами — партнёрская ссылка в описании",
      weight := mkRat 3 10 },
    { name := "OKX", url := "https://www.okx.com/join/YOUR_CODE",
      text := "Хотите попробовать другую биржу? Ссылка с бонусом",
      weight := mkRat 3 10 } ]

/-- The `AffiliateConfig.DISCLOSURE_TEXT` string. -/
def DISCLOSURE_TEXT : String := "содержит партнёрскую ссылку"

/-- Total weight of the configured affiliate links
(`sum(link["weight"] for link in AFFILIATE_LINKS)`). -/
def total_affiliate_weight : ℚ := (AFFILIATE_LINKS.map (·.weight)).sum

/-! ### Data model (src/models.py), restricted to the fields the core reads/writes -/

/-- A `raw_content` row. `processed` is the consumed flag. -/
structure RawContent where
  id : Nat
  text : String := ""
  language : Option String := none
  processed : Bool := false
deriving Repr, DecidableEq

/-- A `processed_content` row. -/
structure ProcessedContent where
  id : Nat
  raw_content_id : Nat := 0
  summary : String := ""
  key_points : List String := []
  content_type : String := "news"
  priority : String := "medium"
  risk_level : String := "low"
  risk_tags : List String := []
  original_language : String := "unknown"
  translated_text : String := ""
  paraphrased_text : String := ""
  headline_short : String := ""
  headline_long : String := ""
  author_note : String := ""
  tags : List String := []
  similarity_score : ℚ := 0
  similar_content_ids : List Nat := []
  status : String := "pending"
  requires_hitl : Bool := false
deriving Repr, DecidableEq

/-- A `published_posts` row (metrics placeholders omitted: the core never
reads them on the paths the claims concern). -/
structure PublishedPost where
  processed_content_id : Nat
  platform : String := "telegram"
  external_post_id : String := ""
  final_text : String := ""
  final_images : List String := []
  headline_used : String := ""
  tags_used : List String := []
  contains_affiliate : Bool := false
  affiliate_link_id : Option String := none
  published_at : Int := 0
deriving Repr, DecidableEq

/-- A `content_archive` row (the Similarity Index corpus). -/
structure ArchiveEntry where
  processed_content_id : Nat
  title : String := ""
  content_text : String := ""
  content_embedding : Option (List ℚ) := none
  published_at : Int := 0
  platform : String := "telegram"
  engagement_score : ℚ := 0
deriving Repr, DecidableEq

/-! ### Gate and risk derivation (ContentProcessor) -/

/-- The fixed sensitive-keyword list of `_check_hitl_requirements`. -/
def sensitive_keywords : List String := ["hack", "scam", "regulation", "sec", "lawsuit"]

/-- Source `ContentProcessor._calculate_risk_level`: "hack"/"scam"/"exploit" ⇒ high,
"rumor"/"regulation" ⇒ medium, else low. -/
def calculate_risk_level (risk_tags : List String) : String :=
  if ["hack", "scam", "exploit"].any (fun t => risk_tags.contains t) then "high"
  else if ["rumor", "regulation"].any (fun t => risk_tags.contains t) then "medium"
  else "low"

/-- Source `ContentProcessor._check_hitl_requirements`: the Gate. Rules in source
order: high risk; similarity above threshold; sensitive keyword in the
lower-cased `translated_text`; empty or short (< 100 chars) `paraphrased_text`.
The source's `except` fallback (return True) is unreachable here because every
operation involved is total. -/
def check_hitl_requirements (s : Settings) (p : ProcessedContent) : Bool :=
  if p.risk_level == "high" then true
  else if s.min_similarity_threshold < p.similarity_score then true
  else if sensitive_keywords.any
      (fun kw => contains_sub (py_lower p.translated_text) kw.data) then true
  else if p.paraphrased_text == "" || p.paraphrased_text.length < 100 then true
  else false

/-- Modelled from the spec: Gate rules 3 and 4 as §4.6 words them, with the
sensitive-keyword membership test evaluated on the REWRITTEN (paraphrased)
text. Used only to compare the spec's wording with the source's
`check_hitl_requirements`, which tests `translated_text`. -/
def spec_gate_hold_rules_3_4 (p : ProcessedContent) : Bool :=
  sensitive_keywords.any (fun kw => contains_sub (py_lower p.paraphrased_text) kw.data)
    || p.paraphrased_text == "" || p.paraphrased_text.length < 100

/-! ### Analysis stage (ContentProcessor._analyze_content) -/

/-- A validated analysis result (all five required fields present). -/
structure Analysis where
  summary_2 : String
  key_points : List String
  risk_tags : List String
  priority : String
  language : String
deriving Repr, DecidableEq

/-- The raw JSON object parsed from the LLM's analysis response; each required
field may be absent. -/
structure AnalysisRaw where
  summary_2 : Option String := none
  key_points : Option (List String) := none
  risk_tags : Option (List String) := none
  priority : Option String := none
  language : Option String := none
deriving Repr, DecidableEq

/-- The required-fields validation of `_analyze_content`: all five of
summary_2, key_points, risk_tags, priority, language must be present,
otherwise the response is rejected (`return None`). -/
def validate_analysis (r : AnalysisRaw) : Option Analysis :=
  match r.summary_2, r.key_points, r.risk_tags, r.priority, r.language with
  | some s, some k, some rt, some pr, some lang =>
      some { summary_2 := s, key_points := k, risk_tags := rt, priority := pr, language := lang }
  | _, _, _, _, _ => none

/-- Source `ContentProcessor._analyze_content`. `cached` is the fingerprint-cache
lookup; `llm_response` is the parsed JSON of the OpenAI call (`none` when the
call failed, timed out, or the response was not JSON — all of which make
`_analyze_content` return None). A parsed response missing a required field is
likewise rejected. -/
def analyze_content (cached : Option Analysis) (llm_response : Option AnalysisRaw) :
    Option Analysis :=
  match cached with
  | some c => some c
  | none =>
    match llm_response with
    | none => none
    | some r => validate_analysis r

/-! ### Translation stage (ContentProcessor._translate_content) -/

/-- The dict returned by `_translate_content` (keys used downstream). -/
structure TranslationResult where
  original_language : String := "unknown"
  translated_text : String := ""
  human_translation : String := ""
  summary : String := ""
  glossary : List String := []
deriving Repr, DecidableEq

/-- Source `ContentProcessor._translate_content`. `service` is the outcome of
`translator.translate_with_llm` (`none` when it raised, which falls to the
`except` default passing the raw text through). The detected language is
`analysis.language` (the analysis result is validated, so the key exists). -/
def translate_content (raw : RawContent) (analysis : Analysis)
    (service : Option TranslationResult) : TranslationResult :=
  if analysis.language == "ru" || analysis.language == "russian" then
    { original_language := analysis.language, translated_text := raw.text,
      human_translation := raw.text, summary := analysis.summary_2, glossary := [] }
  else
    match service with
    | some t => t
    | none =>
      { original_language := raw.language.getD "unknown", translated_text := raw.text,
        human_translation := raw.text, summary := "", glossary := [] }

/-! ### Deduplication stage output -/

/-- The dict returned by the similarity checker, restricted to the keys the
pipeline reads downstream (`similar_content_details` and `embedding` are
write-only on the claimed paths and omitted). All fields default to the
conservative `_default_similarity_result`. -/
structure SimilarityResult where
  similarity_score : ℚ := 0
  similar_content_ids : List Nat := []
  is_duplicate : Bool := false
deriving Repr, DecidableEq

/-! ### Rewrite stage output -/

/-- The dict returned by `_paraphrase_content`; every field read downstream
falls to the shown default when absent (`paraphrase.get(key, default)`), so a
failed call (`{}`) yields exactly this record's defaults. -/
structure Paraphrase where
  headline_short : String := ""
  headline_long : String := ""
  body : String := ""
  author_note : String := ""
  tags : List String := []
deriving Repr, DecidableEq

/-! ### Orchestrator (ContentProcessor.process_single_content) -/

/-- Source `ContentProcessor._classify_content_type`. -/
def classify_content_type (analysis : Analysis) (text : String) : String :=
  if analysis.risk_tags.contains "hack" then "hack"
  else if analysis.risk_tags.contains "regulation" then "regulatory"
  else if analysis.risk_tags.contains "rumor" then "leak"
  else if ["analysis", "technical", "whitepaper"].any
      (fun w => contains_sub (py_lower text) w.data) then "technical"
  else if ["price", "market", "trading"].any
      (fun w => contains_sub (py_lower text) w.data) then "analysis"
  else "news"

/-- Source `ContentProcessor._create_processed_content`: assemble the ProcessedContent
row from the stage outputs. `new_id` stands for the UUID the session assigns at
flush. The analysis result is validated, so the `.get` defaults of the source
for its five fields never fire. -/
def create_processed_content (new_id : Nat) (raw : RawContent) (analysis : Analysis)
    (translation : TranslationResult) (similarity : SimilarityResult)
    (paraphrase : Paraphrase) : ProcessedContent :=
  { id := new_id
    raw_content_id := raw.id
    summary := analysis.summary_2
    key_points := analysis.key_points
    content_type := classify_content_type analysis raw.text
    priority := analysis.priority
    risk_level := calculate_risk_level analysis.risk_tags
    risk_tags := analysis.risk_tags
    original_language := translation.original_language
    translated_text := translation.human_translation
    paraphrased_text := paraphrase.body
    headline_short := paraphrase.headline_short
    headline_long := paraphrase.headline_long
    author_note := paraphrase.author_note
    tags := paraphrase.tags
    similarity_score := similarity.similarity_score
    similar_content_ids := similarity.similar_content_ids
    status := "pending"
    requires_hitl := false }

/-- The relational rows the orchestrator's session touches. -/
structure ProcDB where
  raws : List RawContent := []
  processed : List ProcessedContent := []
deriving Repr, DecidableEq

/-- Orchestrator world: the database plus the Redis publishing queue
(`content_publishing_queue`, newest first). -/
structure ProcWorld where
  db : ProcDB := {}
  publishing_queue : List Nat := []
deriving Repr, DecidableEq

/-- The lookup `session.query(RawContent).filter(RawContent.id == cid).first()`. -/
def find_raw (db : ProcDB) (cid : Nat) : Option RawContent :=
  db.raws.find? (fun r => r.id == cid)

/-- Set the consumed flag of the raw item `cid` (`raw_content.processed = True`). -/
def mark_consumed (rs : List RawContent) (cid : Nat) : List RawContent :=
  rs.map (fun r => if r.id == cid then { r with processed := true } else r)

/-- Source `ContentProcessor.process_single_content`. Collaborator outcomes are
explicit inputs: `cached`/`llm_response` feed `analyze_content`;
`translation_svc` is the translator call (`none` = raised);
`similarity_svc` is the similarity checker's returned dict (`none` = the call
raised, falling to `_check_similarity`'s except default);
`paraphrase_svc` is the rewrite result (`none` = the LLM call failed, which
the source turns into `{}`, i.e. all defaults). `commit_ok = false` means the
final `session.commit()` (or any persistence step before it) raised, so the
outer handler runs `session.rollback()` and nothing is committed; the
post-commit `_queue_for_publishing` is then never reached. -/
def process_single_content (s : Settings) (w : ProcWorld) (content_id : Nat)
    (cached : Option Analysis) (llm_response : Option AnalysisRaw)
    (translation_svc : Option TranslationResult)
    (similarity_svc : Option SimilarityResult)
    (paraphrase_svc : Option Paraphrase)
    (new_id : Nat) (commit_ok : Bool) : ProcWorld :=
  match find_raw w.db content_id with
  | none => w
  | some raw =>
    if raw.processed then w
    else
      match analyze_content cached llm_response with
      | none => w
      | some analysis =>
        let translation := translate_content raw analysis translation_svc
        let similarity := similarity_svc.getD {}
        let paraphrase := paraphrase_svc.getD {}
        let p0 := create_processed_content new_id raw analysis translation similarity paraphrase
        let hitl := check_hitl_requirements s p0
        let p1 := { p0 with requires_hitl := hitl,
                            status := if hitl then "pending" else "ready" }
        if commit_ok then
          let db' : ProcDB := { raws := mark_consumed w.db.raws content_id,
                                processed := p1 :: w.db.processed }
          if hitl then { w with db := db' }
          else { db := db', publishing_queue := p1.id :: w.publishing_queue }
        else w

/-- Does the database hold a ProcessedContent row for this raw item? -/
def has_processed_for (db : ProcDB) (raw_id : Nat) : Bool :=
  db.processed.any (fun p => p.raw_content_id == raw_id)

/-- Is the raw item's consumed flag set? -/
def raw_consumed (db : ProcDB) (cid : Nat) : Bool :=
  (find_raw db cid).elim false (·.processed)

/-! ### Publishing service (PublishingService, src/publishing/publisher.py) -/

/-- The relational rows the publishing service's session touches.
`published_posts` is kept newest-first, representing the
`order_by(published_at.desc())` view of the table used by the service. -/
structure PubDB where
  processed : List ProcessedContent := []
  published_posts : List PublishedPost := []
  archive : List ArchiveEntry := []
deriving Repr, DecidableEq

/-- The cumulative-weight loop of `_should_add_affiliate_link`: return the
first link whose running weight total reaches the random draw `r`. -/
def choose_link_go (links : List AffLink) (r acc : ℚ) : Option AffLink :=
  match links with
  | [] => none
  | l :: ls => if r ≤ acc + l.weight then some l else choose_link_go ls r (acc + l.weight)

/-- Weighted random choice among the configured affiliate links;
`r` is the value of `random.uniform(0, total_weight)`. -/
def choose_link (links : List AffLink) (r : ℚ) : Option AffLink :=
  choose_link_go links r 0

/-- The window query of `_should_add_affiliate_link`: published posts of the
last 24 hours, newest first, limited to `affiliate_link_frequency` rows. -/
def recent_posts (s : Settings) (db : PubDB) (now : Int) : List PublishedPost :=
  (db.published_posts.filter (fun p => now - 86400 ≤ p.published_at)).take
    s.affiliate_link_frequency

/-- Source `PublishingService._should_add_affiliate_link`: insert a link when no post
of the window carries one, or when the window length is an exact multiple of
the configured frequency. -/
def should_add_affiliate_link (s : Settings) (db : PubDB) (now : Int) (r : ℚ) :
    Option AffLink :=
  let recent := recent_posts s db now
  let affiliate_posts := recent.filter (·.contains_affiliate)
  if affiliate_posts.length == 0 || recent.length % s.affiliate_link_frequency == 0 then
    choose_link AFFILIATE_LINKS r
  else none

/-- The dict built by `_prepare_final_content`. -/
structure FinalContent where
  headline : String
  text : String
  contains_affiliate : Bool
  affiliate_link_id : Option String
deriving Repr, DecidableEq

/-- Python `" ".join(f"#tag" for tag in tags)` for the hashtag line. -/
def hashtags_of (tags : List String) : String :=
  String.intercalate " " (tags.map (fun t => "#" ++ t))

/-- Source `PublishingService._prepare_final_content` (the happy path; its `except`
fallback is unreachable because every operation here is total). `r` is the
random draw consumed by the affiliate decision. -/
def prepare_final_content (s : Settings) (db : PubDB) (p : ProcessedContent)
    (now : Int) (r : ℚ) : FinalContent :=
  let headline :=
    if p.headline_short ≠ "" then p.headline_short
    else if p.headline_long ≠ "" then p.headline_long
    else "Новости криптовалют"
  let main0 := if p.paraphrased_text ≠ "" then p.paraphrased_text else p.translated_text
  let main1 := if p.author_note ≠ "" then main0 ++ "\n\n💬 " ++ p.author_note else main0
  let aff := should_add_affiliate_link s db now r
  let main2 :=
    match aff with
    | some link => main1 ++ "\n\n" ++ link.text ++ "\n\n⚠️ " ++ DISCLOSURE_TEXT
    | none => main1
  let main3 :=
    if p.tags ≠ [] then main2 ++ "\n\n" ++ hashtags_of (p.tags.take 3) else main2
  { headline := headline, text := main3,
    contains_affiliate := aff.isSome,
    affiliate_link_id := aff.map (·.name) }

/-- The Telegram message-length truncation of `_publish_to_telegram`. -/
def py_truncate (msg : String) : String :=
  if 4096 < msg.length then String.mk (msg.data.take 4093) ++ "..." else msg

/-- Result of `_publish_to_telegram`: success flag, updated rows, and the text
actually handed to the Telegram API (empty list when no send went through). -/
structure TelegramOutcome where
  ok : Bool
  db : PubDB
  sent : List String
deriving Repr, DecidableEq

/-- Source `PublishingService._publish_to_telegram`. `bot_ready` is whether the bot
was initialized; `photo_send_id` is the message id of the photo send (`none`
when there was no image or the photo path raised, which falls through to the
text send); `text_send_id` is the message id of `send_message` (`none` when it
raised a TelegramError, making the whole call return False). On success the
PublishedPost row is inserted and committed. -/
def publish_to_telegram (db : PubDB) (p : ProcessedContent) (fc : FinalContent)
    (image_urls : List String) (bot_ready : Bool)
    (photo_send_id text_send_id : Option Nat) (now : Int) : TelegramOutcome :=
  if bot_ready = false then { ok := false, db := db, sent := [] }
  else
    let message_text := py_truncate ("**" ++ fc.headline ++ "**\n\n" ++ fc.text)
    let photo_id : Option Nat := if image_urls.isEmpty then none else photo_send_id
    match photo_id.orElse (fun _ => text_send_id) with
    | none => { ok := false, db := db, sent := [message_text] }
    | some mid =>
      let post : PublishedPost :=
        { processed_content_id := p.id
          platform := "telegram"
          external_post_id := toString mid
          final_text := fc.text
          final_images := image_urls
          headline_used := fc.headline
          tags_used := p.tags
          contains_affiliate := fc.contains_affiliate
          affiliate_link_id := fc.affiliate_link_id
          published_at := now }
      { ok := true, db := { db with published_posts := post :: db.published_posts },
        sent := [message_text] }

/-- Flip the status of a processed_content row. -/
def set_status (db : PubDB) (cid : Nat) (st : String) : PubDB :=
  { db with processed :=
      db.processed.map (fun p => if p.id == cid then { p with status := st } else p) }

/-- Result of `publish_content`: returned boolean, committed rows, whether the
Telegram send step was reached, and the texts handed to the Telegram API. -/
structure PublishOutcome where
  ok : Bool
  db : PubDB
  send_attempted : Bool
  sent : List String
deriving Repr, DecidableEq

/-- Source `PublishingService.publish_content`. Early returns: unknown id (False),
status not "ready" (False), a PublishedPost row already present (True, the
idempotency check). Otherwise prepares the final content, attempts the
Telegram send, and on success flips the status to "published" and commits.
`image_urls` is the outcome of `_prepare_images` (an external image service
plus the generated_images table, irrelevant to the claims). On send failure
(`ok = false`) nothing was inserted, so the session holds no changes to roll
back. Note: no step of this function touches the `archive` rows. -/
def publish_content (s : Settings) (db : PubDB) (content_id : Nat)
    (now : Int) (r : ℚ) (image_urls : List String) (bot_ready : Bool)
    (photo_send_id text_send_id : Option Nat) : PublishOutcome :=
  match db.processed.find? (fun p => p.id == content_id) with
  | none => { ok := false, db := db, send_attempted := false, sent := [] }
  | some p =>
    if p.status ≠ "ready" then
      { ok := false, db := db, send_attempted := false, sent := [] }
    else if db.published_posts.any (fun post => post.processed_content_id == content_id) then
      { ok := true, db := db, send_attempted := false, sent := [] }
    else
      let fc := prepare_final_content s db p now r
      let t := publish_to_telegram db p fc image_urls bot_ready photo_send_id text_send_id now
      if t.ok then
        { ok := true, db := set_status t.db content_id "published",
          send_attempted := true, sent := t.sent }
      else
        { ok := false, db := t.db, send_attempted := true, sent := t.sent }

/-- Number of PublishedPost rows for a given processed item. -/
def post_count (db : PubDB) (cid : Nat) : Nat :=
  db.published_posts.countP (fun post => post.processed_content_id == cid)

/-! ### Affiliate-frequency simulation (spec §8, claim C6) -/

/-- A published post as produced by a simulated publish carrying (or not) an
affiliate block; all posts of the run fall inside the 24-hour window. -/
def mk_sim_post (aff : Bool) : PublishedPost :=
  { processed_content_id := 0, contains_affiliate := aff, published_at := 0 }

/-- A run of consecutive publishes: each step consults
`should_add_affiliate_link` on the table of earlier posts (newest first) and
appends a post tagged with the decision's outcome. `rvals k` is the random
draw of step `k`. -/
def simulate_affiliate_run (s : Settings) (rvals : Nat → ℚ) : Nat → List PublishedPost
  | 0 => []
  | k + 1 =>
    let prev := simulate_affiliate_run s rvals k
    let aff := should_add_affiliate_link s { published_posts := prev } 0 (rvals k)
    mk_sim_post aff.isSome :: prev

/-- Count of affiliate-tagged posts. -/
def count_affiliate (posts : List PublishedPost) : Nat :=
  posts.countP (·.contains_affiliate)

/-! ### Scheduled sends (schedule_post / process_scheduled_posts) -/

/-- The payload of a scheduled-queue entry (`content_id`, `publish_at`; the
bookkeeping `scheduled_at`/`timestamp` fields never influence behavior). -/
structure QItem where
  content_id : Nat
  publish_at : Int
deriving Repr, DecidableEq

/-- A Redis value is typed: a key holds either a list or a set. -/
inductive RVal where
  | rlist : List QItem → RVal
  | rset : List QItem → RVal
deriving Repr, DecidableEq

/-- The Redis keyspace, as an association list. -/
abbrev RedisState : Type := List (String × RVal)

/-- Look a key up. -/
def rget (st : RedisState) (k : String) : Option RVal :=
  (st.find? (fun kv => kv.1 == k)).map (·.2)

/-- Bind a key (replace or insert). -/
def rput (st : RedisState) (k : String) (v : RVal) : RedisState :=
  if st.any (fun kv => kv.1 == k) then
    st.map (fun kv => if kv.1 == k then (k, v) else kv)
  else (k, v) :: st

/-- Source `RedisClient.lpush`: Redis LPUSH creates a list at an absent key and
prepends to an existing list; on a key holding a set it raises WRONGTYPE,
which the wrapper's `except` swallows (returns False), leaving state
unchanged. -/
def lpush (st : RedisState) (k : String) (item : QItem) : RedisState :=
  match rget st k with
  | none => rput st k (RVal.rlist [item])
  | some (RVal.rlist l) => rput st k (RVal.rlist (item :: l))
  | some (RVal.rset _) => st

/-- Source `RedisClient.smembers`: SMEMBERS of an absent key is the empty set; on a
key holding a list Redis raises WRONGTYPE, which the wrapper's `except`
swallows and returns `[]`. -/
def smembers (st : RedisState) (k : String) : List QItem :=
  match rget st k with
  | none => []
  | some (RVal.rset members) => members
  | some (RVal.rlist _) => []

/-- Source `PublishingService.schedule_post`: LPUSH the item onto
`scheduled_posts_queue`. -/
def schedule_post (st : RedisState) (cid : Nat) (publish_at : Int) : RedisState :=
  lpush st "scheduled_posts_queue" { content_id := cid, publish_at := publish_at }

/-- One iteration of the sweep loop of `process_scheduled_posts` for a member
whose data parsed: when the target time has passed, the code first calls
`self.redis_client.srem(...)` — but `RedisClient` defines no `srem` method, so
the attribute lookup raises `AttributeError` before any Redis command runs;
the per-item `except` logs and continues, and the subsequent LPUSH onto
`content_publishing_queue` is never reached. State is unchanged either way. -/
def sweep_scheduled_item (st : RedisState) (now : Int) (item : QItem) : RedisState :=
  if item.publish_at ≤ now then st else st

/-- Source `PublishingService.process_scheduled_posts`: read the members of
`scheduled_posts_queue` as a SET (although `schedule_post` fills it as a
list) and run the sweep step on each. -/
def process_scheduled_posts (st : RedisState) (now : Int) : RedisState :=
  (smembers st "scheduled_posts_queue").foldl
    (fun acc item => sweep_scheduled_item acc now item) st

/-! ### Similarity checker (SimilarityChecker, src/utils/similarity.py)

Cosine similarities are represented through the strictly monotone
reparameterization x ↦ sign(x)·x², which turns `dot/(√(dot a a)·√(dot b b))`
into the rational `sign(dot a b)·(dot a b)²/(dot a a · dot b b)`. Every use
the source makes of a similarity value is an order comparison (the 0.3
admission filter, the max, the threshold test), and the map preserves order,
so thresholds are mapped through `ssq` as well and the Boolean outcomes are
exactly those of the source on exact arithmetic. -/

/-- Dot product of two embedding vectors. -/
def dotQ (a b : List ℚ) : ℚ := (List.zipWith (· * ·) a b).sum

/-- The signed square x ↦ sign(x)·x², a strictly monotone map on ℚ. -/
def ssq (x : ℚ) : ℚ := if 0 ≤ x then x ^ 2 else -(x ^ 2)

/-- Signed square of `sklearn.metrics.pairwise.cosine_similarity(a, b)`.
sklearn's normalize maps a zero-norm row to itself, so a zero vector has
cosine similarity 0 against everything. -/
def cos_sim_ssq (a b : List ℚ) : ℚ :=
  if dotQ a a = 0 ∨ dotQ b b = 0 then 0
  else ssq (dotQ a b) / (dotQ a a * dotQ b b)

/-- One element of the `similar_items` list of `_find_similar_content`
(display-only fields omitted); `similarity` is carried in signed-square
representation. -/
structure SimilarItem where
  content_id : Nat
  similarity : ℚ
deriving Repr, DecidableEq

/-- Source `SimilarityChecker._find_similar_content`: load archive rows whose
embedding is not NULL (the query truncates at 1000 rows), admit rows whose
cosine similarity exceeds 0.3, sort by similarity descending, return the top
`limit` (default 10). -/
def find_similar_content (archive : List ArchiveEntry) (emb : List ℚ)
    (limit : Nat := 10) : List SimilarItem :=
  let entries := (archive.filter (fun e => e.content_embedding.isSome)).take 1000
  let items := entries.filterMap (fun e =>
    match e.content_embedding with
    | none => none
    | some v =>
      let sim := cos_sim_ssq emb v
      if ssq (mkRat 3 10) < sim then some { content_id := e.processed_content_id, similarity := sim }
      else none)
  (items.mergeSort (fun x y => decide (y.similarity ≤ x.similarity))).take limit

/-- Python `max(...)` over a list of floats, with the source's
`max_similarity = 0.0` fallback for an empty candidate list. -/
def py_max_or_zero (l : List ℚ) : ℚ :=
  match l with
  | [] => 0
  | x :: xs => xs.foldl max x

/-- Source `SimilarityChecker.check_similarity`: serve from cache when present;
return the conservative default when the embedding computation failed;
otherwise the reported score is the maximum among admitted candidates
(0.0 when there are none) and `is_duplicate` is score > threshold, where
`threshold` stands for `settings.min_similarity_threshold`. -/
def check_similarity (cache : Option SimilarityResult) (emb : Option (List ℚ))
    (archive : List ArchiveEntry) (threshold : ℚ) : SimilarityResult :=
  match cache with
  | some c => c
  | none =>
    match emb with
    | none => {}
    | some v =>
      let similar := find_similar_content archive v
      let max_sim := py_max_or_zero (similar.map (·.similarity))
      { similarity_score := max_sim
        similar_content_ids := similar.map (·.content_id)
        is_duplicate := decide (ssq threshold < max_sim) }

/-! ### Concrete instances used when settling the claims -/

/-- A database holding one already-published item (id 1) together with its
PublishedPost row — the state every successful publish leaves behind. -/
def db_published_once : PubDB :=
  { processed := [{ id := 1, status := "published" }],
    published_posts := [{ processed_content_id := 1 }] }

end CryptoAutopost

namespace CryptoAutopost

/-! ## Helper lemmas -/

/-- The send step `publish_to_telegram` never touches the archive rows. -/
theorem publish_to_telegram_archive (db : PubDB) (p : ProcessedContent) (fc : FinalContent)
    (urls : List String) (bot : Bool) (ph tx : Option Nat) (now : Int) :
    (publish_to_telegram db p fc urls bot ph tx now).db.archive = db.archive := by
  unfold publish_to_telegram
  dsimp only
  split
  · rfl
  · split <;> rfl

/-- The send step `publish_to_telegram` either fails leaving the database unchanged, or
succeeds prepending exactly one new PublishedPost row for `p`, touching
nothing else. -/
theorem publish_to_telegram_cases (db : PubDB) (p : ProcessedContent) (fc : FinalContent)
    (urls : List String) (bot : Bool) (ph tx : Option Nat) (now : Int) :
    ((publish_to_telegram db p fc urls bot ph tx now).ok = false ∧
      (publish_to_telegram db p fc urls bot ph tx now).db = db) ∨
    ((publish_to_telegram db p fc urls bot ph tx now).ok = true ∧
      ∃ post : PublishedPost, post.processed_content_id = p.id ∧
        (publish_to_telegram db p fc urls bot ph tx now).db.published_posts
          = post :: db.published_posts ∧
        (publish_to_telegram db p fc urls bot ph tx now).db.processed = db.processed) := by
  unfold publish_to_telegram
  dsimp only
  split
  · exact Or.inl ⟨rfl, rfl⟩
  · split
    · exact Or.inl ⟨rfl, rfl⟩
    · exact Or.inr ⟨rfl, _, rfl, rfl, rfl⟩

/-- Looking up the consumed raw item after `mark_consumed` finds the same row
with its consumed flag set. -/
theorem find?_mark_consumed (rs : List RawContent) (cid : Nat) :
    (mark_consumed rs cid).find? (fun r => r.id == cid)
      = (rs.find? (fun r => r.id == cid)).map (fun r => { r with processed := true }) := by
  induction rs with
  | nil => rfl
  | cons r rs ih =>
    unfold mark_consumed at ih ⊢
    rw [List.map_cons]
    by_cases h : (r.id == cid) = true
    · rw [if_pos h]
      simp [List.find?, h]
    · rw [if_neg h]
      simp only [List.find?, h]
      exact ih

/-! ## Claim C10 -/

/-- C10: for every ProcessedItem whose status is not "ready" (held, rejected,
already published, …), `publish_content` returns without attempting a send,
without handing anything to Telegram, and without changing any row; only
"ready" items can ever be sent. -/
theorem C10_only_ready_items_published (s : Settings) (db : PubDB) (cid : Nat)
    (now : Int) (r : ℚ) (urls : List String) (bot : Bool) (ph tx : Option Nat)
    (p : ProcessedContent)
    (hfind : db.processed.find? (fun q => q.id == cid) = some p)
    (hst : p.status ≠ "ready") :
    publish_content s db cid now r urls bot ph tx
      = { ok := false, db := db, send_attempted := false, sent := [] } := by
  unfold publish_content
  rw [hfind]
  simp [hst]

/-- Witness for C10: a concrete already-published item is refused without side
effects. -/
theorem C10_witness :
    publish_content {} { processed := [{ id := 1, status := "published" }] } 1 0 0 [] true none none
      = { ok := false, db := { processed := [{ id := 1, status := "published" }] },
          send_attempted := false, sent := [] } :=
  C10_only_ready_items_published {} { processed := [{ id := 1, status := "published" }] }
    1 0 0 [] true none none { id := 1, status := "published" } (by decide) (by decide)

/-! ## Claim C1 -/

/-- C1: `publish_content` never appends an ArchiveEntry — on every path
(including a fully successful send that creates the PublishedRecord and flips
the status to published) the archive rows are left exactly as they were, so
later deduplication queries never see the published item. This refutes the
spec's step (7); `SimilarityChecker.add_to_archive` exists in the source but
is never invoked by the publishing service (nor anywhere else). -/
theorem C1_publish_appends_no_archive_entry (s : Settings) (db : PubDB) (cid : Nat)
    (now : Int) (r : ℚ) (urls : List String) (bot : Bool) (ph tx : Option Nat) :
    (publish_content s db cid now r urls bot ph tx).db.archive = db.archive := by
  unfold publish_content
  cases hfind : db.processed.find? (fun q => q.id == cid) with
  | none => rfl
  | some p =>
    by_cases hst : p.status ≠ "ready"
    · simp [hst]
    · simp only [hst, if_false]
      by_cases hpost : db.published_posts.any (fun post => post.processed_content_id == cid) = true
      · simp [hpost]
      · simp only [Bool.not_eq_true] at hpost
        simp only [hpost, Bool.false_eq_true, if_false]
        by_cases hok : (publish_to_telegram db p (prepare_final_content s db p now r)
            urls bot ph tx now).ok = true
        · simp only [hok, if_true]
          exact publish_to_telegram_archive ..
        · simp only [Bool.not_eq_true] at hok
          simp only [hok, Bool.false_eq_true, if_false]
          exact publish_to_telegram_archive ..

/-! ## Claim C4 -/

/-- C4 counterexample: a ProcessedItem that already has a PublishedRecord and
has (as every successfully published item immediately does) status
"published". Re-invoking publish performs no send and adds no record — but it
returns False, not success: the status guard fires before the idempotency
check ever runs, so the claim's "returns success" is false for it. -/
theorem C4_counterexample :
    (db_published_once.published_posts.any
        (fun post => post.processed_content_id == 1)) = true ∧
    (publish_content {} db_published_once 1 0 0 [] true none none).ok = false ∧
    (publish_content {} db_published_once 1 0 0 [] true none none).db
      = db_published_once := by
  refine ⟨by decide, ?_, ?_⟩ <;> rfl

/-- C4 (amended): when a PublishedRecord already exists for the item,
`publish_content` performs no send, hands nothing to Telegram and changes no
row; it returns success exactly when the item is still in status "ready" (the
explicit idempotency branch), and returns failure — still without side
effects — once the item has left "ready" (e.g. is already marked published).
Independently, every call preserves "at most one PublishedRecord per
ProcessedItem". -/
theorem C4_publish_idempotent (s : Settings) (db : PubDB) (cid : Nat)
    (now : Int) (r : ℚ) (urls : List String) (bot : Bool) (ph tx : Option Nat) :
    (db.published_posts.any (fun post => post.processed_content_id == cid) = true →
      (publish_content s db cid now r urls bot ph tx).db = db ∧
      (publish_content s db cid now r urls bot ph tx).send_attempted = false ∧
      (publish_content s db cid now r urls bot ph tx).sent = [] ∧
      (∀ p, db.processed.find? (fun q => q.id == cid) = some p → p.status = "ready" →
        (publish_content s db cid now r urls bot ph tx).ok = true)) ∧
    (∀ i, post_count db i ≤ 1 →
      post_count (publish_content s db cid now r urls bot ph tx).db i ≤ 1) := by
  unfold publish_content
  cases hfind : db.processed.find? (fun q => q.id == cid) with
  | none =>
    exact ⟨fun _ => ⟨rfl, rfl, rfl, fun p hp => by simp at hp⟩, fun i hi => hi⟩
  | some p =>
    dsimp only
    by_cases hst : p.status ≠ "ready"
    · rw [if_pos hst]
      refine ⟨fun _ => ⟨rfl, rfl, rfl, ?_⟩, fun i hi => hi⟩
      intro q hq hqready
      injection hq with hq
      subst hq
      exact absurd hqready hst
    · rw [if_neg hst]
      by_cases hpost : db.published_posts.any (fun post => post.processed_content_id == cid) = true
      · rw [if_pos hpost]
        exact ⟨fun _ => ⟨rfl, rfl, rfl, fun _ _ _ => rfl⟩, fun i hi => hi⟩
      · rw [if_neg hpost]
        refine ⟨fun h => absurd h hpost, ?_⟩
        intro i hi
        have hzero : db.published_posts.countP
            (fun post => post.processed_content_id == cid) = 0 := by
          rw [List.countP_eq_zero]
          intro a ha hmatch
          exact hpost (List.any_eq_true.mpr ⟨a, ha, hmatch⟩)
        rcases publish_to_telegram_cases db p (prepare_final_content s db p now r)
            urls bot ph tx now with ⟨hok, hdb⟩ | ⟨hok, post, hpid, hposts, _⟩
        · rw [if_neg (by simp [hok])]
          dsimp only
          rw [hdb]
          exact hi
        · rw [if_pos hok]
          have hpcid : p.id = cid := by
            have := List.find?_some hfind
            simpa using this
          show ((set_status _ cid "published").published_posts.countP
            (fun post => post.processed_content_id == i)) ≤ 1
          unfold set_status
          dsimp only
          rw [hposts, List.countP_cons]
          by_cases hicid : i = cid
          · subst hicid
            have h1 : (post.processed_content_id == i) = true := by
              simp [hpid, hpcid]
            rw [if_pos h1]
            omega
          · have h1 : ¬ (post.processed_content_id == i) = true := by
              rw [hpid, hpcid]
              simp only [beq_iff_eq]
              exact fun hc => hicid hc.symm
            rw [if_neg h1, Nat.add_zero]
            exact hi

/-- Witness for C4: concrete already-published database; the repeat call
leaves it unchanged, attempts no send, and the one-record bound holds. -/
theorem C4_witness :
    (publish_content {} db_published_once 1 0 0 [] true none none).db = db_published_once ∧
    (publish_content {} db_published_once 1 0 0 [] true none none).send_attempted = false ∧
    post_count (publish_content {} db_published_once 1 0 0 [] true none none).db 1 ≤ 1 :=
  ⟨((C4_publish_idempotent {} db_published_once 1 0 0 [] true none none).1 (by decide)).1,
   ((C4_publish_idempotent {} db_published_once 1 0 0 [] true none none).1 (by decide)).2.1,
   (C4_publish_idempotent {} db_published_once 1 0 0 [] true none none).2 1 (by decide)⟩

/-! ## Claim C8 -/

/-- C8: whenever the analysis risk tags contain "hack", "scam" or "exploit",
the derived risk level is "high", and the Gate holds the item whatever the
similarity score, text contents, text lengths, headline or any other field of
the ProcessedContent row — rule 1 fires first. -/
theorem C8_high_risk_tags_always_held (s : Settings) (tags : List String)
    (p : ProcessedContent)
    (htag : "hack" ∈ tags ∨ "scam" ∈ tags ∨ "exploit" ∈ tags)
    (hrisk : p.risk_level = calculate_risk_level tags) :
    calculate_risk_level tags = "high" ∧ check_hitl_requirements s p = true := by
  have hhigh : calculate_risk_level tags = "high" := by
    unfold calculate_risk_level
    have hmem : (["hack", "scam", "exploit"].any (fun t => tags.contains t)) = true := by
      rw [List.any_eq_true]
      rcases htag with h | h | h
      · exact ⟨"hack", by simp, by simpa using h⟩
      · exact ⟨"scam", by simp, by simpa using h⟩
      · exact ⟨"exploit", by simp, by simpa using h⟩
    rw [if_pos hmem]
  refine ⟨hhigh, ?_⟩
  unfold check_hitl_requirements
  rw [hrisk, hhigh]
  rfl

/-- Witness for C8: a raw item tagged "hack" is held even with similarity 0,
a long clean rewritten text, and headlines present. -/
theorem C8_witness :
    calculate_risk_level ["hack"] = "high" ∧
    check_hitl_requirements {}
      { id := 1, risk_level := calculate_risk_level ["hack"], similarity_score := 0,
        headline_short := "h", paraphrased_text := String.mk (List.replicate 120 'x') }
      = true :=
  C8_high_risk_tags_always_held {} ["hack"]
    { id := 1, risk_level := calculate_risk_level ["hack"], similarity_score := 0,
      headline_short := "h", paraphrased_text := String.mk (List.replicate 120 'x') }
    (Or.inl (by simp)) rfl

/-! ## Claim C3 -/

set_option maxRecDepth 8192 in
/-- C3 counterexample: risk low, similarity 0, the translated text contains
"scam" but the rewritten (paraphrased) text is 120 clean characters. The
claim predicts no hold (nothing wrong with the rewritten text); the Gate
holds, because the source evaluates the sensitive-keyword test on the
translated text. -/
theorem C3_counterexample :
    (({ id := 1, risk_level := "low", similarity_score := 0,
        translated_text := "scam",
        paraphrased_text := String.mk (List.replicate 120 'x') } : ProcessedContent)).risk_level
        ≠ "high" ∧
    ¬ (Settings.min_similarity_threshold {}
        < (({ id := 1, risk_level := "low", similarity_score := 0,
              translated_text := "scam",
              paraphrased_text := String.mk (List.replicate 120 'x') } : ProcessedContent)).similarity_score) ∧
    check_hitl_requirements {}
      { id := 1, risk_level := "low", similarity_score := 0,
        translated_text := "scam",
        paraphrased_text := String.mk (List.replicate 120 'x') } = true ∧
    spec_gate_hold_rules_3_4
      { id := 1, risk_level := "low", similarity_score := 0,
        translated_text := "scam",
        paraphrased_text := String.mk (List.replicate 120 'x') } = false := by
  refine ⟨by decide, by decide, by decide, by decide⟩

/-- C3 (amended): for items whose risk is not high and whose similarity does
not exceed the duplicate threshold, the Gate holds exactly when the
TRANSLATED text contains a sensitive keyword, or the rewritten text is empty
or shorter than 100 characters — i.e. the keyword membership test is
evaluated on the translated text, not on the rewritten text as the spec
words it. -/
theorem C3_gate_keywords_on_translated_text (s : Settings) (p : ProcessedContent)
    (h1 : p.risk_level ≠ "high")
    (h2 : ¬ s.min_similarity_threshold < p.similarity_score) :
    check_hitl_requirements s p = true ↔
      (sensitive_keywords.any
          (fun kw => contains_sub (py_lower p.translated_text) kw.data) = true
        ∨ p.paraphrased_text = "" ∨ p.paraphrased_text.length < 100) := by
  unfold check_hitl_requirements
  have e1 : ¬ (p.risk_level == "high") = true := by
    simpa using h1
  rw [if_neg e1, if_neg h2]
  by_cases e3 : sensitive_keywords.any
      (fun kw => contains_sub (py_lower p.translated_text) kw.data) = true
  · rw [if_pos e3]
    exact ⟨fun _ => Or.inl e3, fun _ => rfl⟩
  · rw [if_neg e3]
    by_cases e4 : (p.paraphrased_text == "" || decide (p.paraphrased_text.length < 100)) = true
    · rw [if_pos e4]
      refine ⟨fun _ => ?_, fun _ => rfl⟩
      rcases Bool.or_eq_true .. |>.mp e4 with h | h
      · exact Or.inr (Or.inl (by simpa using h))
      · exact Or.inr (Or.inr (by simpa using h))
    · rw [if_neg e4]
      constructor
      · intro h
        exact absurd h (by simp)
      · intro h
        rcases h with h | h | h
        · exact absurd h e3
        · exact absurd (by simp [h] : (p.paraphrased_text == "" || decide (p.paraphrased_text.length < 100)) = true) e4
        · exact absurd (by simp [h] : (p.paraphrased_text == "" || decide (p.paraphrased_text.length < 100)) = true) e4

set_option maxRecDepth 8192 in
/-- Witness for C3: a clean low-risk item (no keyword in the translated text,
120-character rewritten text) is not held, matching the amended rule. -/
theorem C3_witness :
    check_hitl_requirements {}
      { id := 2, risk_level := "low", similarity_score := 0,
        translated_text := "bitcoin news",
        paraphrased_text := String.mk (List.replicate 120 'y') } = true ↔
      (sensitive_keywords.any
          (fun kw => contains_sub (py_lower
            (({ id := 2, risk_level := "low", similarity_score := 0,
                translated_text := "bitcoin news",
                paraphrased_text := String.mk (List.replicate 120 'y') } : ProcessedContent)).translated_text)
            kw.data) = true
        ∨ (({ id := 2, risk_level := "low", similarity_score := 0,
              translated_text := "bitcoin news",
              paraphrased_text := String.mk (List.replicate 120 'y') } : ProcessedContent)).paraphrased_text = ""
        ∨ (({ id := 2, risk_level := "low", similarity_score := 0,
              translated_text := "bitcoin news",
              paraphrased_text := String.mk (List.replicate 120 'y') } : ProcessedContent)).paraphrased_text.length < 100) :=
  C3_gate_keywords_on_translated_text {}
    { id := 2, risk_level := "low", similarity_score := 0,
      translated_text := "bitcoin news",
      paraphrased_text := String.mk (List.replicate 120 'y') }
    (by decide) (by decide)

/-! ## Claim C2 -/

/-- C2 counterexample: the LLM's analysis response parses but misses the
required "language" field, so the Analysis stage fails. The claim predicts a
conservative default, the remaining stages, a persisted ProcessedItem and a
Gate decision; instead `process_single_content` returns with the world
unchanged — no default, no ProcessedItem, no Gate, item unconsumed. -/
theorem C2_counterexample :
    process_single_content {}
        { db := { raws := [{ id := 1, text := "Bitcoin hits 50k", language := some "en" }] } } 1
        none
        (some { summary_2 := some "s", key_points := some [], risk_tags := some [],
                priority := some "medium", language := none })
        none none none 7 true
      = { db := { raws := [{ id := 1, text := "Bitcoin hits 50k", language := some "en" }] } } ∧
    has_processed_for
        { raws := [{ id := 1, text := "Bitcoin hits 50k", language := some "en" }] } 1 = false ∧
    raw_consumed
        { raws := [{ id := 1, text := "Bitcoin hits 50k", language := some "en" }] } 1 = false :=
  ⟨rfl, rfl, rfl⟩

/-- C2 (amended): a failure of the Analysis stage (collaborator error,
malformed response, or a required field missing) ABORTS the item: nothing is
substituted, no ProcessedItem is persisted, the Gate never runs, and the raw
item stays unconsumed (available for redelivery). The conservative defaults
and the always-reach-the-Gate behavior apply only to the later stages: when
Analysis succeeds, failures of translation, deduplication and rewrite all
fall back to their defaults, and a ProcessedItem carrying the Gate's decision
is committed together with the consumed mark. -/
theorem C2_analysis_failure_aborts (s : Settings) (w : ProcWorld) (content_id : Nat)
    (cached : Option Analysis) (llm : Option AnalysisRaw) (tr : Option TranslationResult)
    (sim : Option SimilarityResult) (para : Option Paraphrase) (new_id : Nat)
    (raw : RawContent)
    (hraw : find_raw w.db content_id = some raw) (hunconsumed : raw.processed = false) :
    (analyze_content cached llm = none →
      ∀ commit_ok,
        process_single_content s w content_id cached llm tr sim para new_id commit_ok = w) ∧
    (∀ a, analyze_content cached llm = some a →
      (process_single_content s w content_id cached llm tr sim para new_id true).db.processed
        = (let p0 := create_processed_content new_id raw a (translate_content raw a tr)
              (sim.getD {}) (para.getD {})
           let hitl := check_hitl_requirements s p0
           { p0 with requires_hitl := hitl,
                     status := if hitl then "pending" else "ready" }) :: w.db.processed ∧
      raw_consumed
        (process_single_content s w content_id cached llm tr sim para new_id true).db
        content_id = true) := by
  have hconsumed : ¬ (raw.processed = true) := by simp [hunconsumed]
  constructor
  · intro han commit_ok
    unfold process_single_content
    rw [hraw]
    dsimp only
    rw [if_neg hconsumed, han]
  · intro a han
    unfold process_single_content
    rw [hraw]
    dsimp only
    rw [if_neg hconsumed, han]
    dsimp only
    rw [if_pos rfl]
    have hid : (raw.id == content_id) = true := by
      have := List.find?_some (show w.db.raws.find? (fun r => r.id == content_id) = some raw
        from hraw)
      simpa using this
    by_cases hh : check_hitl_requirements s (create_processed_content new_id raw a
        (translate_content raw a tr) (sim.getD {}) (para.getD {})) = true
    · rw [if_pos hh]
      refine ⟨rfl, ?_⟩
      simp [raw_consumed, find_raw, find?_mark_consumed,
        show w.db.raws.find? (fun r => r.id == content_id) = some raw from hraw]
    · rw [if_neg hh]
      refine ⟨rfl, ?_⟩
      simp [raw_consumed, find_raw, find?_mark_consumed,
        show w.db.raws.find? (fun r => r.id == content_id) = some raw from hraw]

/-- Witness for C2: with the raw item present and unconsumed, an analysis
failure leaves the world untouched. -/
theorem C2_witness :
    process_single_content {} { db := { raws := [{ id := 1 }] } } 1
      none none none none none 7 true = { db := { raws := [{ id := 1 }] } } :=
  (C2_analysis_failure_aborts {} { db := { raws := [{ id := 1 }] } } 1
      none none none none none 7 { id := 1 } rfl rfl).1 rfl true

/-! ## Claim C5 -/

/-- C5: the consumed mark is only ever committed in the same transaction as
the ProcessedItem: every run either leaves the world exactly as it was
(analysis failure, unknown or already-consumed item, or a persistence step
raising before/at the final commit, which rolls everything back), or commits
the ProcessedItem and the consumed mark together. In particular a persistence
failure (`commit_ok = false`) leaves the item uncommitted and safe for
redelivery. -/
theorem C5_consumed_only_with_processed (s : Settings) (w : ProcWorld) (content_id : Nat)
    (cached : Option Analysis) (llm : Option AnalysisRaw) (tr : Option TranslationResult)
    (sim : Option SimilarityResult) (para : Option Paraphrase) (new_id : Nat)
    (commit_ok : Bool) :
    (commit_ok = false →
      process_single_content s w content_id cached llm tr sim para new_id commit_ok = w) ∧
    (process_single_content s w content_id cached llm tr sim para new_id commit_ok = w ∨
      (has_processed_for
          (process_single_content s w content_id cached llm tr sim para new_id commit_ok).db
          content_id = true ∧
       raw_consumed
          (process_single_content s w content_id cached llm tr sim para new_id commit_ok).db
          content_id = true)) := by
  unfold process_single_content
  cases hfind : find_raw w.db content_id with
  | none => exact ⟨fun _ => rfl, Or.inl rfl⟩
  | some raw =>
    dsimp only
    by_cases hproc : raw.processed = true
    · rw [if_pos hproc]
      exact ⟨fun _ => rfl, Or.inl rfl⟩
    · rw [if_neg hproc]
      cases han : analyze_content cached llm with
      | none => exact ⟨fun _ => rfl, Or.inl rfl⟩
      | some analysis =>
        dsimp only
        by_cases hc : commit_ok = true
        · rw [if_pos hc]
          have hfind' : w.db.raws.find? (fun r => r.id == content_id) = some raw := hfind
          have hid : (raw.id == content_id) = true := by
            simpa using List.find?_some hfind'
          refine ⟨fun hfalse => absurd hc (by simp [hfalse]), Or.inr ?_⟩
          by_cases hh : check_hitl_requirements s (create_processed_content new_id raw
              analysis (translate_content raw analysis tr) (sim.getD {}) (para.getD {})) = true
          · rw [if_pos hh]
            refine ⟨?_, ?_⟩
            · simp [has_processed_for, create_processed_content, hid]
            · simp [raw_consumed, find_raw, find?_mark_consumed, hfind']
          · rw [if_neg hh]
            refine ⟨?_, ?_⟩
            · simp [has_processed_for, create_processed_content, hid]
            · simp [raw_consumed, find_raw, find?_mark_consumed, hfind']
        · rw [if_neg hc]
          exact ⟨fun _ => rfl, Or.inl rfl⟩

/-- Witness for C5: a persistence failure at commit time rolls back the whole
item — with a valid cached analysis in hand, nothing is committed. -/
theorem C5_witness :
    process_single_content {} { db := { raws := [{ id := 1 }] } } 1
      (some { summary_2 := "s", key_points := [], risk_tags := [],
              priority := "medium", language := "en" })
      none none none none 7 false = { db := { raws := [{ id := 1 }] } } :=
  (C5_consumed_only_with_processed {} { db := { raws := [{ id := 1 }] } } 1
      (some { summary_2 := "s", key_points := [], risk_tags := [],
              priority := "medium", language := "en" })
      none none none none 7 false).1 rfl

/-! ## Claim C7 -/

/-- The per-item sweep step never changes Redis state: the srem attribute
lookup raises before any command runs and the handler swallows it. -/
theorem sweep_scheduled_item_noop (st : RedisState) (now : Int) (item : QItem) :
    sweep_scheduled_item st now item = st := by
  unfold sweep_scheduled_item
  split <;> rfl

/-- Folding the no-op sweep step over any member list changes nothing. -/
theorem foldl_sweep_noop (now : Int) (l : List QItem) (st : RedisState) :
    l.foldl (fun acc item => sweep_scheduled_item acc now item) st = st := by
  induction l generalizing st with
  | nil => rfl
  | cons x xs ih =>
    rw [List.foldl_cons, sweep_scheduled_item_noop]
    exact ih _

/-- C7: a scheduled item whose target timestamp has passed is NOT moved by
the sweep: `process_scheduled_posts` leaves the entire Redis state (the
delayed structure and the publishing queue included) unchanged. The schedule
path LPUSHes onto a list while the sweep reads the same key as a set (Redis
WRONGTYPE, swallowed as an empty member list) and removes via a
`RedisClient.srem` method that does not exist, so no item is ever removed
from the delayed structure or enqueued for sending. -/
theorem C7_sweep_moves_nothing (st : RedisState) (cid : Nat) (t now : Int)
    (h : t ≤ now) :
    process_scheduled_posts (schedule_post st cid t) now = schedule_post st cid t := by
  unfold process_scheduled_posts
  exact foldl_sweep_noop now _ _

/-- Witness for C7: scheduling item 1 for time 0 and sweeping at time 100
changes nothing. -/
theorem C7_witness :
    process_scheduled_posts (schedule_post [] 1 0) 100 = schedule_post [] 1 0 :=
  C7_sweep_moves_nothing [] 1 0 100 (by decide)

/-! ## Claim C6 -/

/-- The configured affiliate weights (0.4 + 0.3 + 0.3) sum to 1. -/
theorem total_affiliate_weight_eq : total_affiliate_weight = 1 := by
  unfold total_affiliate_weight AFFILIATE_LINKS
  simp [Rat.mkRat_eq_divInt, Rat.divInt_eq_div]
  norm_num

/-- The total affiliate weight is nonnegative (random.uniform draws from
[0, total]). -/
theorem total_affiliate_weight_nonneg : (0 : ℚ) ≤ total_affiliate_weight := by
  rw [total_affiliate_weight_eq]
  exact zero_le_one

/-- The cumulative-weight loop returns a link whenever the draw is at most
the accumulator plus the remaining total. -/
theorem choose_link_go_isSome (r : ℚ) (links : List AffLink) :
    ∀ acc : ℚ, links ≠ [] → r ≤ acc + (links.map (·.weight)).sum →
      (choose_link_go links r acc).isSome = true := by
  induction links with
  | nil => exact fun acc h _ => absurd rfl h
  | cons l ls ih =>
    intro acc _ hle
    unfold choose_link_go
    by_cases hc : r ≤ acc + l.weight
    · rw [if_pos hc]
      rfl
    · rw [if_neg hc]
      rcases ls with _ | ⟨l2, ls2⟩
      · exfalso
        apply hc
        simpa using hle
      · apply ih
        · simp
        · simp only [List.map_cons, List.sum_cons] at hle ⊢
          linarith

/-- A draw `random.uniform(0, total_weight)` always selects a link from the
configured candidates. -/
theorem choose_link_affiliate_isSome (r : ℚ) (h1 : r ≤ total_affiliate_weight) :
    (choose_link AFFILIATE_LINKS r).isSome = true := by
  unfold choose_link
  apply choose_link_go_isSome
  · simp [AFFILIATE_LINKS]
  · rw [zero_add]
    exact h1

/-- A simulated run of k publishes yields k posts. -/
theorem simulate_length (s : Settings) (rvals : Nat → ℚ) :
    ∀ k, (simulate_affiliate_run s rvals k).length = k := by
  intro k
  induction k with
  | zero => rfl
  | succ k ih =>
    unfold simulate_affiliate_run
    dsimp only
    rw [List.length_cons, ih]

/-- On an empty window the affiliate rule fires, so the decision reduces to
the weighted choice. -/
theorem should_add_on_empty (s : Settings) (r : ℚ) :
    should_add_affiliate_link s { published_posts := [] } 0 r
      = choose_link AFFILIATE_LINKS r := by
  simp [should_add_affiliate_link, recent_posts]

/-- The very first simulated publish carries an affiliate block. -/
theorem simulate_one (s : Settings) (rvals : Nat → ℚ)
    (hr0 : rvals 0 ≤ total_affiliate_weight) :
    simulate_affiliate_run s rvals 1 = [mk_sim_post true] := by
  have hsome : (should_add_affiliate_link s { published_posts := [] } 0 (rvals 0)).isSome
      = true := by
    rw [should_add_on_empty]
    exact choose_link_affiliate_isSome _ hr0
  simp only [simulate_affiliate_run]
  rw [hsome]

/-- With exactly one post in the window and that post affiliate-tagged, the
rule does not fire (the window holds an affiliate post and its length 1 is
not a multiple of the frequency ≥ 2). -/
theorem should_add_one_recent_affiliate (s : Settings)
    (hN : 2 ≤ s.affiliate_link_frequency) (r : ℚ) :
    should_add_affiliate_link s { published_posts := [mk_sim_post true] } 0 r = none := by
  obtain ⟨m, hm⟩ : ∃ m, s.affiliate_link_frequency = m + 2 :=
    ⟨s.affiliate_link_frequency - 2, by omega⟩
  unfold should_add_affiliate_link recent_posts
  rw [hm]
  have hmod : 1 % (m + 2) = 1 := Nat.mod_eq_of_lt (by omega)
  simp [mk_sim_post, List.take, hmod]

/-- Every nonempty simulated run ends (in publication order: starts) with an
affiliate-tagged post. -/
theorem simulate_getLast (s : Settings) (rvals : Nat → ℚ)
    (hr : ∀ i, rvals i ≤ total_affiliate_weight) :
    ∀ k, 1 ≤ k →
      (simulate_affiliate_run s rvals k).getLast? = some (mk_sim_post true) := by
  intro k
  induction k with
  | zero => omega
  | succ k ih =>
    intro _
    by_cases hk : 1 ≤ k
    · have hlen : (simulate_affiliate_run s rvals k).length = k := simulate_length s rvals k
      obtain ⟨b, l, hbl⟩ : ∃ b l, simulate_affiliate_run s rvals k = b :: l := by
        cases hsim : simulate_affiliate_run s rvals k with
        | nil => rw [hsim] at hlen; simp at hlen; omega
        | cons b l => exact ⟨b, l, rfl⟩
      unfold simulate_affiliate_run
      dsimp only
      rw [hbl, List.getLast?_cons_cons, ← hbl]
      exact ih hk
    · have hk0 : k = 0 := by omega
      subst hk0
      rw [simulate_one s rvals (hr 0)]
      rfl

/-- The second simulated publish never carries an affiliate block. -/
theorem simulate_second (s : Settings) (rvals : Nat → ℚ)
    (hN : 2 ≤ s.affiliate_link_frequency)
    (hr : ∀ i, rvals i ≤ total_affiliate_weight) :
    ∀ k, 2 ≤ k →
      (simulate_affiliate_run s rvals k)[k - 2]? = some (mk_sim_post false) := by
  intro k
  induction k with
  | zero => omega
  | succ k ih =>
    intro hk2
    by_cases hk : 2 ≤ k
    · unfold simulate_affiliate_run
      dsimp only
      have hidx : k + 1 - 2 = (k - 2) + 1 := by omega
      rw [hidx, List.getElem?_cons_succ]
      exact ih hk
    · have hk1 : k = 1 := by omega
      subst hk1
      unfold simulate_affiliate_run
      dsimp only
      rw [simulate_one s rvals (hr 0), should_add_one_recent_affiliate s hN (rvals 1)]
      rfl

/-- C6: over a run of 5×N consecutive publishes with affiliate frequency
N ≥ 2 (all inside the 24-hour window, each random draw inside
[0, total_weight]), the affiliate rule tags at least one post (the first) and
leaves at least one post untagged (the second): the affiliate count is
neither 0 nor 5×N. -/
theorem C6_affiliate_frequency_bounds (N : Nat) (rvals : Nat → ℚ) (hN : 2 ≤ N)
    (hr : ∀ i, 0 ≤ rvals i ∧ rvals i ≤ total_affiliate_weight) :
    (simulate_affiliate_run { affiliate_link_frequency := N } rvals (5 * N)).length = 5 * N ∧
    0 < count_affiliate (simulate_affiliate_run { affiliate_link_frequency := N } rvals (5 * N)) ∧
    count_affiliate (simulate_affiliate_run { affiliate_link_frequency := N } rvals (5 * N))
      < 5 * N := by
  have hr' : ∀ i, rvals i ≤ total_affiliate_weight := fun i => (hr i).2
  have hlen := simulate_length { affiliate_link_frequency := N } rvals (5 * N)
  have hlast := simulate_getLast { affiliate_link_frequency := N } rvals hr' (5 * N)
    (by omega)
  have hsecond := simulate_second { affiliate_link_frequency := N } rvals hN hr' (5 * N)
    (by omega)
  have hmem_true : mk_sim_post true ∈
      simulate_affiliate_run { affiliate_link_frequency := N } rvals (5 * N) :=
    List.mem_of_getLast?_eq_some hlast
  have hmem_false : mk_sim_post false ∈
      simulate_affiliate_run { affiliate_link_frequency := N } rvals (5 * N) :=
    List.getElem?_mem hsecond
  refine ⟨hlen, ?_, ?_⟩
  · exact List.countP_pos_iff.mpr ⟨mk_sim_post true, hmem_true, rfl⟩
  · have hsplit := List.length_eq_countP_add_countP
      (fun post => post.contains_affiliate)
      (simulate_affiliate_run { affiliate_link_frequency := N } rvals (5 * N))
    have hneg : 0 < List.countP
        (fun post => ¬ post.contains_affiliate = true)
        (simulate_affiliate_run { affiliate_link_frequency := N } rvals (5 * N)) :=
      List.countP_pos_iff.mpr ⟨mk_sim_post false, hmem_false, by simp [mk_sim_post]⟩
    unfold count_affiliate
    omega

/-- Witness for C6: frequency 2, ten publishes, all draws 0 — the run has ten
posts and an affiliate count strictly between 0 and 10. -/
theorem C6_witness :
    (simulate_affiliate_run { affiliate_link_frequency := 2 } (fun _ => 0) 10).length = 10 ∧
    0 < count_affiliate (simulate_affiliate_run { affiliate_link_frequency := 2 } (fun _ => 0) 10) ∧
    count_affiliate (simulate_affiliate_run { affiliate_link_frequency := 2 } (fun _ => 0) 10) < 10 :=
  C6_affiliate_frequency_bounds 2 (fun _ => 0) (by decide)
    (fun _ => ⟨le_refl 0, total_affiliate_weight_nonneg⟩)

/-! ## Claim C9 -/

/-- A vector's dot product with itself is a sum of squares. -/
theorem dotQ_self_nonneg (v : List ℚ) : 0 ≤ dotQ v v := by
  unfold dotQ
  have hmap : List.zipWith (· * ·) v v = v.map (fun x => x * x) := by
    induction v with
    | nil => rfl
    | cons x xs ih => simp [List.zipWith, ih]
  rw [hmap]
  apply List.sum_nonneg
  intro x hx
  obtain ⟨y, _, rfl⟩ := List.mem_map.mp hx
  exact mul_self_nonneg y

/-- The signed square of a nonnegative rational is nonnegative. -/
theorem ssq_nonneg (x : ℚ) (h : 0 ≤ x) : 0 ≤ ssq x := by
  unfold ssq
  rw [if_pos h]
  positivity

/-- The signed square of anything below 1 stays below 1. -/
theorem ssq_lt_one (t : ℚ) (ht : t < 1) : ssq t < 1 := by
  unfold ssq
  split
  · exact pow_lt_one₀ (by assumption) ht (by norm_num)
  · nlinarith [sq_nonneg t]

/-- Folding `max` never drops below its seed. -/
theorem le_foldl_max (l : List ℚ) : ∀ a : ℚ, a ≤ l.foldl max a := by
  induction l with
  | nil => exact fun a => le_refl a
  | cons x xs ih =>
    intro a
    rw [List.foldl_cons]
    exact le_trans (le_max_left a x) (ih (max a x))

/-- A vector that is nonzero (in the dot-product sense) has cosine
similarity exactly 1 with itself. -/
theorem cos_sim_ssq_self (E : List ℚ) (hE : dotQ E E ≠ 0) : cos_sim_ssq E E = 1 := by
  unfold cos_sim_ssq
  rw [if_neg (by push_neg; exact ⟨hE, hE⟩)]
  unfold ssq
  rw [if_pos (dotQ_self_nonneg E), sq]
  exact div_self (mul_ne_zero hE hE)

/-- C9 counterexample: an archive entry whose stored embedding is the zero
vector, and a candidate whose computed embedding is the same zero vector.
sklearn's cosine similarity of zero vectors is 0, so the entry never passes
the 0.3 admission filter and `is_duplicate` comes out false although the
configured threshold 0.7 is strictly below 1.0. -/
theorem C9_counterexample :
    mkRat 7 10 < 1 ∧
    (check_similarity none (some [(0 : ℚ)])
        [{ processed_content_id := 1, content_embedding := some [(0 : ℚ)] }]
        (mkRat 7 10)).is_duplicate = false := by
  refine ⟨by decide, ?_⟩
  have hdot : dotQ [(0 : ℚ)] [(0 : ℚ)] = 0 := by simp [dotQ]
  have h0 : cos_sim_ssq [(0 : ℚ)] [(0 : ℚ)] = 0 := by
    unfold cos_sim_ssq
    rw [if_pos (Or.inl hdot)]
  have hfind : find_similar_content
      [{ processed_content_id := 1, content_embedding := some [(0 : ℚ)] }] [(0 : ℚ)]
      = [] := by
    unfold find_similar_content
    dsimp only
    have hsub : (([{ processed_content_id := 1, content_embedding := some [(0 : ℚ)] }]
          : List ArchiveEntry).filter (fun e => e.content_embedding.isSome)).take 1000
        = [{ processed_content_id := 1, content_embedding := some [(0 : ℚ)] }] := by
      rw [List.take_of_length_le] <;> simp
    rw [hsub, List.filterMap_cons]
    dsimp only
    rw [h0, if_neg (not_lt.mpr (ssq_nonneg _ (by decide))), List.filterMap_nil]
    simp
  unfold check_similarity
  dsimp only
  rw [hfind]
  simp only [List.map_nil]
  exact decide_eq_false (not_lt.mpr (ssq_nonneg _ (by decide)))

/-- C9 (amended): on a cache miss with the embedding computation succeeding,
if the candidate's computed embedding E equals the stored embedding of an
archive entry, E is nonzero (nonzero self-dot), and that entry is among the
(at most 1000) archive rows the similarity query loads, then `is_duplicate`
is true for every configured duplicate threshold strictly below 1.0: the
self-similarity 1.0 passes the 0.3 admission filter, the reported score is
the maximum among admitted candidates (hence ≥ 1), and the threshold test
score > threshold fires. -/
theorem C9_identical_embedding_is_duplicate (archive : List ArchiveEntry) (E : List ℚ)
    (t : ℚ) (e : ArchiveEntry)
    (hmem : e ∈ (archive.filter (fun a => a.content_embedding.isSome)).take 1000)
    (hemb : e.content_embedding = some E)
    (hE : dotQ E E ≠ 0) (ht : t < 1) :
    (check_similarity none (some E) archive t).is_duplicate = true := by
  have hcos : cos_sim_ssq E E = 1 := cos_sim_ssq_self E hE
  have hadm : ssq (mkRat 3 10) < cos_sim_ssq E E := by
    rw [hcos]
    exact ssq_lt_one _ (by decide)
  -- the entry survives the admission filter
  have hin : ({ content_id := e.processed_content_id, similarity := cos_sim_ssq E E }
        : SimilarItem)
      ∈ ((archive.filter (fun a => a.content_embedding.isSome)).take 1000).filterMap
        (fun a =>
          match a.content_embedding with
          | none => none
          | some v =>
            let sim := cos_sim_ssq E v
            if ssq (mkRat 3 10) < sim then
              some { content_id := a.processed_content_id, similarity := sim }
            else none) := by
    apply List.mem_filterMap.mpr
    refine ⟨e, hmem, ?_⟩
    rw [hemb]
    dsimp only
    rw [if_pos hadm]
  -- the returned top-10 list starts with the maximal similarity
  have hmax : 1 ≤ py_max_or_zero
      ((find_similar_content archive E).map (·.similarity)) := by
    unfold find_similar_content
    dsimp only
    generalize hitems : ((archive.filter (fun a => a.content_embedding.isSome)).take
        1000).filterMap _ = items at hin
    have hms : ({ content_id := e.processed_content_id, similarity := cos_sim_ssq E E }
          : SimilarItem)
        ∈ items.mergeSort (fun x y => decide (y.similarity ≤ x.similarity)) :=
      List.mem_mergeSort.mpr hin
    have hsorted := @List.sorted_mergeSort SimilarItem
      (fun x y : SimilarItem => decide (y.similarity ≤ x.similarity))
      (fun a b c hab hbc => by
        simp only [decide_eq_true_eq] at *
        exact le_trans hbc hab)
      (fun a b => by
        simp only [Bool.or_eq_true, decide_eq_true_eq]
        exact le_total b.similarity a.similarity)
      items
    cases hms' : items.mergeSort (fun x y => decide (y.similarity ≤ x.similarity)) with
    | nil => rw [hms'] at hms; simp at hms
    | cons hd tl =>
      rw [hms'] at hms hsorted
      have hhd : 1 ≤ hd.similarity := by
        rcases List.mem_cons.mp hms with heq | htl
        · rw [← heq]
          dsimp only
          rw [hcos]
        · have := (List.pairwise_cons.mp hsorted).1 _ htl
          simp only [decide_eq_true_eq] at this
          calc (1 : ℚ) = cos_sim_ssq E E := hcos.symm
            _ ≤ hd.similarity := by simpa using this
      rw [List.take_succ_cons, List.map_cons]
      unfold py_max_or_zero
      exact le_trans hhd (le_foldl_max _ _)
  unfold check_similarity
  dsimp only
  exact decide_eq_true (lt_of_lt_of_le (ssq_lt_one t ht) hmax)

/-- Witness for C9: a one-entry archive with embedding [1], candidate
embedding [1], default threshold 0.7 — the duplicate verdict fires. -/
theorem C9_witness :
    (check_similarity none (some [(1 : ℚ)])
        [{ processed_content_id := 2, content_embedding := some [(1 : ℚ)] }]
        (mkRat 7 10)).is_duplicate = true :=
  C9_identical_embedding_is_duplicate
    [{ processed_content_id := 2, content_embedding := some [(1 : ℚ)] }] [(1 : ℚ)]
    (mkRat 7 10) { processed_content_id := 2, content_embedding := some [(1 : ℚ)] }
    (by simp) rfl (by simp [dotQ]) (by decide)

end CryptoAutopost
